import Mathlib

/-!
Verification of the body-fat assessor and tracker image/analysis pipeline.

Shallow embedding of the Python sources `image.py`, `analysis.py`,
`schemas.py` and `config.py`.  Machine text is modelled as `String` or
`List Char`, Python floats as `ℚ` (exact arithmetic; the float rounding of
CPython agrees with the exact value on every input used in the claims),
byte strings by their length plus a structural-validity flag, and the
external face detector, JSON decoder, float-of-string primitive, UUID and
JPEG encoder as explicit parameters, since they are third-party libraries
and not code of this repository.
-/

namespace BodyFat

/-! Configuration (`config.py`, class Settings) -/

def max_upload_size : Nat := 10 * 1024 * 1024

def allowed_extensions : List String := [".jpg", ".jpeg", ".png", ".webp"]

def max_image_dimension : Nat := 2048

/-- Message `ErrorMessages.IMAGE_TOO_LARGE`; the f-string renders `10.0MB`. -/
def IMAGE_TOO_LARGE : String := "Image exceeds maximum size of 10.0MB"

def INVALID_IMAGE_FORMAT : String := "Invalid image format. Allowed: JPG, PNG, WEBP"

def PROCESSING_FAILED : String := "Failed to process image"

def CORRUPT_IMAGE : String := "Invalid or corrupted image file"

/-! Image model

A PIL image is modelled by its pixel dimensions together with the list of
face regions that have been blurred into it (`image.paste` of a blurred
crop).  A freshly decoded upload has `blurred = []`. -/

/-- A face bounding box as returned by `face_recognition.face_locations`
(top, right, bottom, left). -/
structure FaceBox where
  top : Int
  right : Int
  bottom : Int
  left : Int
deriving DecidableEq, Repr

structure Image where
  width : Nat
  height : Nat
  blurred : List FaceBox
deriving DecidableEq, Repr

/-! Modelling `Path(filename).suffix.lower()`

CPython's `pathlib` computes the suffix of the final component as
`name[i:]` where `i` is the index of the last dot, provided
`0 < i < len(name) - 1`, and `''` otherwise.  Upload filenames contain no
directory separators. -/

/-- Index of the last occurrence of `'.'` in a character list, if any. -/
def lastDotIdx (cs : List Char) : Option Nat :=
  ((List.range cs.length).filter (fun i => cs.getD i ' ' = '.')).getLast?

def pathSuffix (s : String) : String :=
  match lastDotIdx s.data with
  | some i => if 0 < i ∧ i + 1 < s.data.length then String.mk (s.data.drop i) else ""
  | none => ""

/-- Python `str.lower()` restricted to ASCII (all filenames, enum values
and JSON keys in this system are ASCII). -/
def lowerChar (c : Char) : Char :=
  if 'A' ≤ c ∧ c ≤ 'Z' then Char.ofNat (c.toNat + 32) else c

def lowerStr (s : String) : String :=
  String.mk (s.data.map lowerChar)

/-- Computes `Path(filename).suffix.lower()` as used in both `_validate_image` and
`save_and_process_image`. -/
def suffixLower (filename : String) : String :=
  lowerStr (pathSuffix filename)

/-! Modelling `ImageService._validate_image` (image.py lines 102-126) -/

def _validate_image (data_len : Nat) (filename : String) (decodes : Bool) :
    Except String Unit :=
  if data_len > max_upload_size then
    Except.error IMAGE_TOO_LARGE
  else if suffixLower filename ∉ allowed_extensions then
    Except.error INVALID_IMAGE_FORMAT
  else if ¬ decodes then
    Except.error CORRUPT_IMAGE
  else
    Except.ok ()

/-! Modelling `ImageService._resize_if_needed` (image.py lines 128-151)

`int(height * (max_dim / width))` is modelled by exact floored rational
arithmetic `height * max_dim / width` on `Nat`. -/

def _resize_if_needed (img : Image) : Image :=
  let w := img.width
  let h := img.height
  let m := max_image_dimension
  if w > m ∨ h > m then
    if w > h then
      { width := m, height := h * m / w, blurred := img.blurred }
    else
      { width := w * m / h, height := m, blurred := img.blurred }
  else
    img

/-! Modelling `ImageService._anonymize_faces` (image.py lines 153-192)

The external detector is a parameter: `Except.error e` models
`face_recognition.face_locations` raising, `Except.ok locs` a successful
detection.  The blur loop (crop, GaussianBlur, paste) is modelled by
recording the blurred regions on the image. -/

def _anonymize_faces (detector : Except String (List FaceBox)) (img : Image) :
    Nat × Image :=
  match detector with
  | Except.error _ => (0, img)
  | Except.ok locs =>
    if locs.isEmpty then
      (0, img)
    else
      (locs.length, { img with blurred := img.blurred ++ locs })

/-! Modelling `ImageService.save_and_process_image` (image.py lines 37-100) -/

/-- Externally observable side effects of one pipeline invocation.
`fileWrite` records the path and the image content written by
`image.save(...)`; `providerCall` would be an AI-provider request (which
this pipeline never performs — analysis is a separate endpoint). -/
inductive Effect
  | fileWrite (path : String) (content : Image)
  | providerCall
deriving DecidableEq, Repr

/-- The tuple returned on success:
(file_path, width, height, file_size, faces_detected, is_anonymized). -/
structure PipelineResult where
  file_path : String
  width : Nat
  height : Nat
  file_size : Nat
  faces_detected : Nat
  is_anonymized : Bool
deriving DecidableEq, Repr

/-- External collaborators of one pipeline run: the face detector outcome,
the `uuid.uuid4()` token, and the on-disk byte size produced by the JPEG
encoder for a given image. -/
structure Env where
  detector : Except String (List FaceBox)
  uuid : String
  savedSize : Image → Nat

/-- The extension chosen for the persisted file (image.py lines 78-80):
the validated extension, with a defensive fallback to `".jpg"`. -/
def chosen_extension (filename : String) : String :=
  let e := suffixLower filename
  if e ∈ allowed_extensions then e else ".jpg"

/-- Whether the defensive fallback branch executed. -/
def fallbackTaken (filename : String) : Bool :=
  decide (suffixLower filename ∉ allowed_extensions)

/-- Pipeline `save_and_process_image`.  On any internal `ImageProcessingError` the
outer handler (lines 99-100) re-wraps the message as
`"Failed to process image: <msg>"`.  Returns the effect trace together
with the result. -/
def save_and_process_image (env : Env) (upload_dir : String)
    (data_len : Nat) (original_filename : String) (user_id : String)
    (decodes : Bool) (img : Image) :
    List Effect × Except String PipelineResult :=
  match _validate_image data_len original_filename decodes with
  | Except.error e => ([], Except.error (PROCESSING_FAILED ++ ": " ++ e))
  | Except.ok _ =>
    let resized := _resize_if_needed img
    let anon := _anonymize_faces env.detector resized
    let faces_detected := anon.1
    let processed := anon.2
    let is_anonymized := decide (faces_detected > 0)
    let ext := chosen_extension original_filename
    let filename := user_id ++ "_" ++ env.uuid ++ ext
    let file_path := upload_dir ++ "/" ++ filename
    ([Effect.fileWrite file_path processed],
     Except.ok
       { file_path := file_path
         width := processed.width
         height := processed.height
         file_size := env.savedSize processed
         faces_detected := faces_detected
         is_anonymized := is_anonymized })

/-! Response-text cleanup (`AnalysisService._parse_ai_response`,
analysis.py lines 194-203)

The provider's reply is modelled as a `List Char`.  `str.strip()` removes
leading and trailing Python whitespace; the fence markers are spelled via
`Char.ofNat 96` (the backtick). -/

/-- Characters stripped by Python `str.strip()` (ASCII whitespace). -/
def isPySpace (c : Char) : Bool :=
  c = ' ' ∨ c = '\t' ∨ c = '\n' ∨ c = '\r' ∨ c = Char.ofNat 11 ∨ c = Char.ofNat 12

def btick : Char := Char.ofNat 96

/-- A bare triple-backtick fence marker. -/
def fenceBare : List Char := [btick, btick, btick]

/-- The JSON-language-tagged fence marker (7 characters). -/
def fenceJson : List Char := fenceBare ++ ['j', 's', 'o', 'n']

def trimL (l : List Char) : List Char := l.dropWhile isPySpace

def trimR (l : List Char) : List Char := (l.reverse.dropWhile isPySpace).reverse

/-- Python `str.strip()`. -/
def pyStrip (l : List Char) : List Char := trimR (trimL l)

/-- The cleanup performed on the raw response before `json.loads`:
strip, drop a leading ```` ```json ```` (7 chars), drop a leading
```` ``` ```` (3 chars), drop a trailing ```` ``` ````, strip again. -/
def stripFences (s : List Char) : List Char :=
  let c0 := pyStrip s
  let c1 := if fenceJson.isPrefixOf c0 then c0.drop 7 else c0
  let c2 := if fenceBare.isPrefixOf c1 then c1.drop 3 else c1
  let c3 := if fenceBare.isSuffixOf c2 then c2.take (c2.length - 3) else c2
  pyStrip c3

/-! Enumerations (`models.py`) and `AIAnalysisResult` (`schemas.py`
lines 93-106) -/

inductive ConfidenceLevel
  | low
  | medium
  | high
deriving DecidableEq, Repr

inductive PhotoQuality
  | poor
  | fair
  | good
  | excellent
deriving DecidableEq, Repr

structure AIAnalysisResult where
  body_fat_percentage : ℚ
  confidence : ConfidenceLevel
  reasoning : String
  photo_quality : PhotoQuality
deriving DecidableEq, Repr

/-- Rounding to one decimal place, `round(v, 1)`.  CPython rounds the
binary float to the nearest representable tenth; on exact-decimal inputs
away from halfway points this equals nearest-integer rounding of `10 v`
divided by `10`, which is what we use. -/
def roundTenths (v : ℚ) : ℚ := (round (v * 10) : ℤ) / 10

/-- The `validate_percentage` field validator (schemas.py lines 100-106):
re-checks the 5.0–50.0 bounds and rounds to one decimal. -/
def validate_percentage (v : ℚ) : Option ℚ :=
  if 5 ≤ v ∧ v ≤ 50 then some (roundTenths v) else none

/-- Pydantic construction of `AIAnalysisResult`: the `Field` constraints
`ge=5.0, le=50.0` on the percentage and `min_length=10` on the reasoning,
then the `validate_percentage` validator.  `none` models a
`ValidationError` (a `ValueError`): construction aborts, nothing is
clamped. -/
def mkAIAnalysisResult (p : ℚ) (c : ConfidenceLevel) (r : String)
    (q : PhotoQuality) : Option AIAnalysisResult :=
  if ¬ (5 ≤ p ∧ p ≤ 50) then none
  else if r.length < 10 then none
  else
    (validate_percentage p).map
      (fun p2 =>
        { body_fat_percentage := p2, confidence := c, reasoning := r,
          photo_quality := q })

/-! JSON values and CPython exception semantics

`json.loads` is third-party; it is a parameter of the parser, returning
either a decoding failure, a non-dict document, or a dict (association
list mapping string keys to values).  Values retain only the structure the
parser's operations discriminate on. -/

inductive JVal
  | jstr (s : String)
  | jnum (q : ℚ)
  | jbool (b : Bool)
  | jnull
  | jlist
  | jdict
deriving DecidableEq, Repr

inductive JDoc
  | dict (fields : List (String × JVal))
  | nonDict
deriving DecidableEq, Repr

/-- The CPython exceptions the parser can raise internally.  The `except`
clause at analysis.py line 218 catches exactly `json.JSONDecodeError`,
`KeyError` and `ValueError` (pydantic's `ValidationError` is a
`ValueError`); `TypeError` and `AttributeError` are not caught there. -/
inductive PyErr
  | jsonDecode
  | keyError
  | valueError
  | typeError
  | attributeError
deriving DecidableEq, Repr

def caughtErr : PyErr → Bool
  | PyErr.jsonDecode => true
  | PyErr.keyError => true
  | PyErr.valueError => true
  | PyErr.typeError => false
  | PyErr.attributeError => false

/-- Subscript `data[key]`: `KeyError` on a missing key, `TypeError` when the decoded
document is not a dict (list/str/number subscripted by a string). -/
def getItem (d : JDoc) (key : String) : Except PyErr JVal :=
  match d with
  | JDoc.dict fields =>
    match fields.lookup key with
    | some v => Except.ok v
    | none => Except.error PyErr.keyError
  | JDoc.nonDict => Except.error PyErr.typeError

/-- Conversion `float(v)`: numbers and bools convert; strings go through the C
`strtod` primitive (a parameter; `none` means `ValueError`); `None`,
lists and dicts raise `TypeError`. -/
def pyFloat (floatOfStr : String → Option ℚ) (v : JVal) : Except PyErr ℚ :=
  match v with
  | JVal.jnum q => Except.ok q
  | JVal.jbool b => Except.ok (if b then 1 else 0)
  | JVal.jstr s =>
    match floatOfStr s with
    | some q => Except.ok q
    | none => Except.error PyErr.valueError
  | JVal.jnull => Except.error PyErr.typeError
  | JVal.jlist => Except.error PyErr.typeError
  | JVal.jdict => Except.error PyErr.typeError

/-- Method `v.lower()`: only strings have `.lower`; anything else raises
`AttributeError`. -/
def pyLower (v : JVal) : Except PyErr String :=
  match v with
  | JVal.jstr s => Except.ok (lowerStr s)
  | _ => Except.error PyErr.attributeError

/-- Coercion `ConfidenceLevel(s)`: `ValueError` when `s` is not a member value. -/
def confidenceOfString (s : String) : Except PyErr ConfidenceLevel :=
  if s = "low" then Except.ok ConfidenceLevel.low
  else if s = "medium" then Except.ok ConfidenceLevel.medium
  else if s = "high" then Except.ok ConfidenceLevel.high
  else Except.error PyErr.valueError

/-- Coercion `PhotoQuality(s)`. -/
def photoQualityOfString (s : String) : Except PyErr PhotoQuality :=
  if s = "poor" then Except.ok PhotoQuality.poor
  else if s = "fair" then Except.ok PhotoQuality.fair
  else if s = "good" then Except.ok PhotoQuality.good
  else if s = "excellent" then Except.ok PhotoQuality.excellent
  else Except.error PyErr.valueError

/-- Pydantic validation of the constructor call: a non-string `reasoning`
fails `str`-type validation; all pydantic failures are `ValueError`s. -/
def pydanticBuild (p : ℚ) (c : ConfidenceLevel) (rv : JVal)
    (q : PhotoQuality) : Except PyErr AIAnalysisResult :=
  match rv with
  | JVal.jstr rs =>
    match mkAIAnalysisResult p c rs q with
    | some res => Except.ok res
    | none => Except.error PyErr.valueError
  | _ => Except.error PyErr.valueError

/-- The body of the `try` block of `_parse_ai_response` (lines 194-216):
cleanup, `json.loads`, field extraction and coercion in CPython's
left-to-right argument order, pydantic construction. -/
def parseCore (decode : List Char → Except Unit JDoc)
    (floatOfStr : String → Option ℚ) (text : List Char) :
    Except PyErr AIAnalysisResult := do
  let cleaned := stripFences text
  let d ← match decode cleaned with
    | Except.ok d => pure d
    | Except.error _ => Except.error PyErr.jsonDecode
  let pv ← getItem d "body_fat_percentage"
  let p ← pyFloat floatOfStr pv
  let cv ← getItem d "confidence"
  let cs ← pyLower cv
  let c ← confidenceOfString cs
  let rv ← getItem d "reasoning"
  let qv ← getItem d "photo_quality"
  let qs ← pyLower qv
  let q ← photoQualityOfString qs
  pydanticBuild p c rv q

/-- Outcome of `_parse_ai_response` when it does not return normally:
either the `AIAnalysisError` raised by its own handler (line 220, carrying
the message), or an exception the handler does not catch. -/
inductive ParseFail
  | analysisError (msg : List Char)
  | uncaught (e : PyErr)
deriving DecidableEq, Repr

def parseErrHead : List Char :=
  "Failed to parse AI response. Raw response: ".data

/-- Method `_parse_ai_response` (analysis.py lines 182-222): caught exceptions
become one `AIAnalysisError` whose message embeds `response_text[:200]`. -/
def parse_ai_response (decode : List Char → Except Unit JDoc)
    (floatOfStr : String → Option ℚ) (text : List Char) :
    Except ParseFail AIAnalysisResult :=
  match parseCore decode floatOfStr text with
  | Except.ok r => Except.ok r
  | Except.error e =>
    if caughtErr e then
      Except.error (ParseFail.analysisError (parseErrHead ++ text.take 200))
    else
      Except.error (ParseFail.uncaught e)

/-- Method `AnalysisService.validate_analysis_result` (analysis.py lines
244-261): the secondary acceptance check. -/
def validate_analysis_result (r : AIAnalysisResult) : Bool :=
  if ¬ (5 ≤ r.body_fat_percentage ∧ r.body_fat_percentage ≤ 50) then false
  else if r.reasoning.length < 20 then false
  else true

/-! Concrete fixtures used by witnesses and counterexamples. -/

def detectorOneFace : Except String (List FaceBox) :=
  Except.ok [FaceBox.mk 10 100 110 20]

def envOneFace : Env := ⟨detectorOneFace, "t", fun _ => 12345⟩

def envFailingDetector : Env := ⟨Except.error "detector crashed", "t", fun _ => 12345⟩

/-- A decoder fixture: every text decodes to a dict with valid
percentage, confidence and quality, and the given reasoning string. -/
def decodeOkReasoning (r : String) : List Char → Except Unit JDoc := fun _ =>
  Except.ok (JDoc.dict
    [("body_fat_percentage", JVal.jnum (91/5)),
     ("confidence", JVal.jstr "high"),
     ("reasoning", JVal.jstr r),
     ("photo_quality", JVal.jstr "good")])

/-- A decoder fixture: the `confidence` field carries a number, a
wrong-typed but structurally parseable response. -/
def decodeBadConfidence : List Char → Except Unit JDoc := fun _ =>
  Except.ok (JDoc.dict
    [("body_fat_percentage", JVal.jnum 20),
     ("confidence", JVal.jnum 3),
     ("reasoning", JVal.jstr "a long enough reasoning text"),
     ("photo_quality", JVal.jstr "good")])

/-- A decoder fixture that always fails (malformed JSON). -/
def decodeFail : List Char → Except Unit JDoc := fun _ => Except.error ()

def floatOfStrNone : String → Option ℚ := fun _ => none

/-! Helper lemmas -/

theorem lt_divmul_add (a b : Nat) (hb : 0 < b) : a < a / b * b + b := by
  have h1 := Nat.div_add_mod a b
  have h2 := Nat.mod_lt a hb
  rw [Nat.mul_comm]
  omega

theorem scaled_le (h m w : Nat) (hw : 0 < w) (hle : h ≤ w) : h * m / w ≤ m := by
  calc h * m / w ≤ w * m / w := Nat.div_le_div_right (Nat.mul_le_mul_right m hle)
  _ = m := Nat.mul_div_cancel_left m hw

/-! Claims -/

/-- Claim C2: the Normalizer's output has both edges (hence the longer edge)
bounded by the configured maximum dimension; the aspect ratio is preserved
to the nearest integer pixel, stated cross-multiplied: the products
`out.height * in.width` and `in.height * out.width` differ by less than
one pixel row/column (`max in.width in.height`); and an image already
within the maximum is returned unchanged (never upscaled). -/
theorem c2_normalizer_resize (img : Image)
    (hw : 0 < img.width) (hh : 0 < img.height) :
    (_resize_if_needed img).width ≤ max_image_dimension ∧
    (_resize_if_needed img).height ≤ max_image_dimension ∧
    (_resize_if_needed img).height * img.width <
      img.height * (_resize_if_needed img).width + max img.width img.height ∧
    img.height * (_resize_if_needed img).width <
      (_resize_if_needed img).height * img.width + max img.width img.height ∧
    (img.width ≤ max_image_dimension ∧ img.height ≤ max_image_dimension →
      _resize_if_needed img = img) := by
  obtain ⟨w, h, bl⟩ := img
  simp only at hw hh
  simp only [_resize_if_needed]
  have hm : 0 < max_image_dimension := by unfold max_image_dimension; omega
  split_ifs with hbig hwh
  · -- landscape resize: out = (max_image_dimension, h * m / w)
    have hq : h * max_image_dimension / w ≤ max_image_dimension :=
      scaled_le h max_image_dimension w hw (Nat.le_of_lt hwh)
    have hA : h * max_image_dimension / w * w ≤ h * max_image_dimension :=
      Nat.div_mul_le_self (h * max_image_dimension) w
    have hB : h * max_image_dimension <
        h * max_image_dimension / w * w + w :=
      lt_divmul_add (h * max_image_dimension) w hw
    have hM : max w h = w := Nat.max_eq_left (Nat.le_of_lt hwh)
    refine ⟨le_refl max_image_dimension, hq, ?_, ?_, ?_⟩
    · dsimp only
      omega
    · dsimp only
      omega
    · intro hsmall
      exact absurd hsmall (by omega)
  · -- portrait resize: out = (w * m / h, max_image_dimension)
    have hwh2 : w ≤ h := Nat.le_of_not_lt hwh
    have hq : w * max_image_dimension / h ≤ max_image_dimension :=
      scaled_le w max_image_dimension h hh hwh2
    have hA : w * max_image_dimension / h * h ≤ w * max_image_dimension :=
      Nat.div_mul_le_self (w * max_image_dimension) h
    have hB : w * max_image_dimension <
        w * max_image_dimension / h * h + h :=
      lt_divmul_add (w * max_image_dimension) h hh
    have hM : max w h = h := Nat.max_eq_right hwh2
    have hc1 : h * (w * max_image_dimension / h) =
        w * max_image_dimension / h * h :=
      Nat.mul_comm h (w * max_image_dimension / h)
    have hc2 : max_image_dimension * w = w * max_image_dimension :=
      Nat.mul_comm max_image_dimension w
    refine ⟨hq, le_refl max_image_dimension, ?_, ?_, ?_⟩
    · dsimp only
      omega
    · dsimp only
      omega
    · intro hsmall
      exact absurd hsmall (by omega)
  · -- no resize
    have hwm : w ≤ max_image_dimension := by omega
    have hhm : h ≤ max_image_dimension := by omega
    have hmax : 0 < max w h := Nat.lt_of_lt_of_le hw (Nat.le_max_left w h)
    refine ⟨hwm, hhm, ?_, ?_, fun _ => rfl⟩
    · dsimp only
      omega
    · dsimp only
      omega

/-- Claim C2 witness: the theorem applied to a concrete 4000×3000 image. -/
theorem c2_normalizer_resize_witness :
    0 < (Image.mk 4000 3000 []).width ∧ 0 < (Image.mk 4000 3000 []).height ∧
    ((_resize_if_needed (Image.mk 4000 3000 [])).width ≤ max_image_dimension ∧
     (_resize_if_needed (Image.mk 4000 3000 [])).height ≤ max_image_dimension ∧
     (_resize_if_needed (Image.mk 4000 3000 [])).height *
        (Image.mk 4000 3000 []).width <
       (Image.mk 4000 3000 []).height *
          (_resize_if_needed (Image.mk 4000 3000 [])).width +
         max (Image.mk 4000 3000 []).width (Image.mk 4000 3000 []).height ∧
     (Image.mk 4000 3000 []).height *
        (_resize_if_needed (Image.mk 4000 3000 [])).width <
       (_resize_if_needed (Image.mk 4000 3000 [])).height *
          (Image.mk 4000 3000 []).width +
         max (Image.mk 4000 3000 []).width (Image.mk 4000 3000 []).height ∧
     ((Image.mk 4000 3000 []).width ≤ max_image_dimension ∧
        (Image.mk 4000 3000 []).height ≤ max_image_dimension →
       _resize_if_needed (Image.mk 4000 3000 []) = Image.mk 4000 3000 [])) :=
  ⟨by decide, by decide,
   c2_normalizer_resize (Image.mk 4000 3000 []) (by decide) (by decide)⟩

/-- Claim C6: validation checks size, then extension, then structural
validity, erroring on the first failure; an over-limit upload makes the
whole pipeline raise with an empty effect trace, so no file is written and
no provider call occurs. -/
theorem c6_validation_order (env : Env) (upload_dir : String)
    (data_len : Nat) (filename : String) (user_id : String)
    (decodes : Bool) (img : Image) :
    (data_len > max_upload_size →
      _validate_image data_len filename decodes =
        Except.error IMAGE_TOO_LARGE) ∧
    (data_len ≤ max_upload_size →
      suffixLower filename ∉ allowed_extensions →
      _validate_image data_len filename decodes =
        Except.error INVALID_IMAGE_FORMAT) ∧
    (data_len ≤ max_upload_size →
      suffixLower filename ∈ allowed_extensions → decodes = false →
      _validate_image data_len filename decodes =
        Except.error CORRUPT_IMAGE) ∧
    (data_len > max_upload_size →
      save_and_process_image env upload_dir data_len filename user_id
          decodes img =
        ([], Except.error (PROCESSING_FAILED ++ ": " ++ IMAGE_TOO_LARGE))) := by
  refine ⟨?_, ?_, ?_, ?_⟩
  · intro hlen
    unfold _validate_image
    rw [if_pos hlen]
  · intro hlen hext
    unfold _validate_image
    rw [if_neg (by omega), if_pos hext]
  · intro hlen hext hdec
    unfold _validate_image
    rw [if_neg (by omega), if_neg (not_not_intro hext), hdec]
    rfl
  · intro hlen
    unfold save_and_process_image _validate_image
    rw [if_pos hlen]

/-- Claim C6 witness: concrete instances of each conjunct. -/
theorem c6_validation_order_witness :
    _validate_image (max_upload_size + 1) "a.png" true =
      Except.error IMAGE_TOO_LARGE ∧
    _validate_image 100 "a.txt" true = Except.error INVALID_IMAGE_FORMAT ∧
    _validate_image 100 "a.png" false = Except.error CORRUPT_IMAGE ∧
    save_and_process_image envOneFace "uploads" (max_upload_size + 1)
        "a.png" "u" true (Image.mk 4000 3000 []) =
      ([], Except.error (PROCESSING_FAILED ++ ": " ++ IMAGE_TOO_LARGE)) :=
  ⟨(c6_validation_order envOneFace "uploads" (max_upload_size + 1) "a.png"
      "u" true (Image.mk 4000 3000 [])).1 (by omega),
   (c6_validation_order envOneFace "uploads" 100 "a.txt" "u" true
      (Image.mk 4000 3000 [])).2.1 (by decide) (by decide),
   (c6_validation_order envOneFace "uploads" 100 "a.png" "u" false
      (Image.mk 4000 3000 [])).2.2.1 (by decide) (by decide) rfl,
   (c6_validation_order envOneFace "uploads" (max_upload_size + 1) "a.png"
      "u" true (Image.mk 4000 3000 [])).2.2.2 (by omega)⟩

/-- Claim C9: for every upload that passes validation, the lower-cased
extension is in the allowed set, so the persisted filename keeps it and
the defensive `".jpg"` fallback branch never executes. -/
theorem c9_fallback_unreachable (data_len : Nat) (filename : String)
    (decodes : Bool)
    (hval : _validate_image data_len filename decodes = Except.ok ()) :
    fallbackTaken filename = false ∧
    chosen_extension filename = suffixLower filename := by
  have hmem : suffixLower filename ∈ allowed_extensions := by
    by_contra hno
    unfold _validate_image at hval
    by_cases h1 : data_len > max_upload_size
    · rw [if_pos h1] at hval
      exact Except.noConfusion hval
    · rw [if_neg h1, if_pos hno] at hval
      exact Except.noConfusion hval
  refine ⟨decide_eq_false (not_not_intro hmem), ?_⟩
  simp only [chosen_extension]
  rw [if_pos hmem]

/-- Claim C9 witness. -/
theorem c9_fallback_unreachable_witness :
    _validate_image 100 "photo.PNG" true = Except.ok () ∧
    (fallbackTaken "photo.PNG" = false ∧
      chosen_extension "photo.PNG" = suffixLower "photo.PNG") :=
  ⟨rfl, c9_fallback_unreachable 100 "photo.PNG" true rfl⟩

/-- Claim C1: a detector exception makes the Anonymizer return face count 0
with the input image unchanged, and the pipeline on a valid upload still
completes successfully (returns a result, not an error). -/
theorem c1_detector_failure_nonfatal (e : String) (img : Image)
    (uuid : String) (savedSize : Image → Nat) (upload_dir : String)
    (data_len : Nat) (filename : String) (user_id : String) (decodes : Bool)
    (hval : _validate_image data_len filename decodes = Except.ok ()) :
    _anonymize_faces (Except.error e) img = (0, img) ∧
    ∃ r : PipelineResult,
      (save_and_process_image ⟨Except.error e, uuid, savedSize⟩ upload_dir
          data_len filename user_id decodes img).2 = Except.ok r ∧
      r.faces_detected = 0 ∧ r.is_anonymized = false := by
  constructor
  · rfl
  · unfold save_and_process_image
    rw [hval]
    exact ⟨_, rfl, rfl, rfl⟩

/-- Claim C1 witness. -/
theorem c1_detector_failure_nonfatal_witness :
    _validate_image 100 "photo.png" true = Except.ok () ∧
    (_anonymize_faces (Except.error "detector crashed")
        (Image.mk 2048 1536 []) = (0, Image.mk 2048 1536 []) ∧
      ∃ r : PipelineResult,
        (save_and_process_image
            ⟨Except.error "detector crashed", "t", fun _ => 12345⟩ "uploads"
            100 "photo.png" "u" true (Image.mk 2048 1536 [])).2 =
          Except.ok r ∧
        r.faces_detected = 0 ∧ r.is_anonymized = false) :=
  ⟨rfl,
   c1_detector_failure_nonfatal "detector crashed" (Image.mk 2048 1536 [])
     "t" (fun _ => 12345) "uploads" 100 "photo.png" "u" true rfl⟩

/-- Claim C10: every successful pipeline run returns
`is_anonymized = true` exactly when the returned face count is positive;
in particular a failed or faceless detection yields an un-anonymized
record. -/
theorem c10_anonymized_iff_faces (env : Env) (upload_dir : String)
    (data_len : Nat) (filename : String) (user_id : String) (decodes : Bool)
    (img : Image) (r : PipelineResult)
    (hr : (save_and_process_image env upload_dir data_len filename user_id
        decodes img).2 = Except.ok r) :
    (r.is_anonymized = true ↔ 0 < r.faces_detected) := by
  unfold save_and_process_image at hr
  cases hval : _validate_image data_len filename decodes with
  | error e =>
    rw [hval] at hr
    simp at hr
  | ok u =>
    cases u
    rw [hval] at hr
    simp only [Except.ok.injEq] at hr
    subst hr
    simp [decide_eq_true_iff]

/-- Claim C10 witness. -/
theorem c10_anonymized_iff_faces_witness :
    (save_and_process_image envOneFace "uploads" 100 "photo.png" "u" true
        (Image.mk 2048 1536 [])).2 =
      Except.ok
        (PipelineResult.mk "uploads/u_t.png" 2048 1536 12345 1 true) ∧
    ((PipelineResult.mk "uploads/u_t.png" 2048 1536 12345 1
          true).is_anonymized = true ↔
      0 < (PipelineResult.mk "uploads/u_t.png" 2048 1536 12345 1
          true).faces_detected) :=
  ⟨rfl,
   c10_anonymized_iff_faces envOneFace "uploads" 100 "photo.png" "u" true
     (Image.mk 2048 1536 []) _ rfl⟩

/-! Fence-stripping lemmas (for C4) -/

theorem isPrefixOf_append_self (p t : List Char) : p.isPrefixOf (p ++ t) = true := by
  induction p with
  | nil => exact List.isPrefixOf_nil_left
  | cons a as ih => simp [List.cons_append, List.isPrefixOf_cons₂, ih]

theorem isPrefixOf_of_append (p q l : List Char)
    (h : (p ++ q).isPrefixOf l = true) : p.isPrefixOf l = true := by
  induction p generalizing l with
  | nil => exact List.isPrefixOf_nil_left
  | cons a as ih =>
    cases l with
    | nil => exact absurd h (by simp)
    | cons c cs =>
      simp only [List.cons_append, List.isPrefixOf_cons₂, Bool.and_eq_true] at h ⊢
      exact ⟨h.1, ih cs h.2⟩

theorem isPrefixOf_concat_cases (p l : List Char) (c : Char)
    (h : p.isPrefixOf (l ++ [c]) = true) :
    p.isPrefixOf l = true ∨ p = l ++ [c] := by
  induction p generalizing l with
  | nil => exact Or.inl List.isPrefixOf_nil_left
  | cons a as ih =>
    cases l with
    | nil =>
      simp only [List.nil_append] at h ⊢
      cases as with
      | nil =>
        right
        simp only [List.isPrefixOf_cons₂, Bool.and_eq_true, beq_iff_eq] at h
        rw [h.1]
      | cons d ds =>
        rw [List.isPrefixOf_cons₂] at h
        simp at h
    | cons e es =>
      simp only [List.cons_append, List.isPrefixOf_cons₂, Bool.and_eq_true,
        beq_iff_eq] at h ⊢
      rcases ih es h.2 with h3 | h3
      · exact Or.inl ⟨h.1, h3⟩
      · right
        rw [h.1, h3]

theorem isSuffixOf_fence_append (x : List Char) :
    fenceBare.isSuffixOf (x ++ fenceBare) = true := by
  show fenceBare.reverse.isPrefixOf (x ++ fenceBare).reverse = true
  rw [List.reverse_append]
  exact isPrefixOf_append_self _ _

theorem isSuffixOf_cons_false (j : List Char) (c : Char)
    (h4 : fenceBare.isSuffixOf j = false) (hc : (c == btick) = false) :
    fenceBare.isSuffixOf (c :: j) = false := by
  cases hx : fenceBare.isSuffixOf (c :: j) with
  | false => rfl
  | true =>
    exfalso
    have hx2 : fenceBare.reverse.isPrefixOf (c :: j).reverse = true := hx
    rw [List.reverse_cons] at hx2
    rcases isPrefixOf_concat_cases _ _ _ hx2 with h5 | h5
    · have h6 : fenceBare.isSuffixOf j = true := h5
      rw [h4] at h6
      exact Bool.noConfusion h6
    · have h6 := congrArg List.reverse h5
      simp only [List.reverse_reverse, List.reverse_append, List.reverse_cons,
        List.reverse_nil, List.nil_append, List.singleton_append] at h6
      have h7 : btick = c := by
        have h8 := congrArg (fun l => l.headD ' ') h6
        simpa using h8
      rw [← h7] at hc
      simp at hc

theorem head_not_space (c : Char) (t : List Char) (h : trimL (c :: t) = c :: t) :
    isPySpace c = false := by
  cases hx : isPySpace c with
  | false => rfl
  | true =>
    exfalso
    unfold trimL at h
    rw [List.dropWhile_cons_of_pos hx] at h
    have hlen := congrArg List.length h
    have hle := (List.dropWhile_sublist (l := t) isPySpace).length_le
    simp at hlen
    omega

theorem last_not_space (l : List Char) (c : Char)
    (h : trimR (l ++ [c]) = l ++ [c]) : isPySpace c = false := by
  cases hx : isPySpace c with
  | false => rfl
  | true =>
    exfalso
    unfold trimR at h
    rw [List.reverse_append] at h
    simp only [List.reverse_cons, List.reverse_nil, List.nil_append,
      List.singleton_append] at h
    rw [List.dropWhile_cons_of_pos hx] at h
    have hlen := congrArg List.length h
    have hle := (List.dropWhile_sublist (l := l.reverse) isPySpace).length_le
    simp at hlen hle
    omega

theorem dropWhile_eq_self_of_head (j : List Char) (hne : j ≠ [])
    (h1 : trimL j = j) (t : List Char) :
    List.dropWhile isPySpace (j ++ t) = j ++ t := by
  cases j with
  | nil => exact absurd rfl hne
  | cons a as =>
    have ha := head_not_space a as h1
    rw [List.cons_append, List.dropWhile_cons_of_neg (by simp [ha])]

theorem trimR_dropWhile (j : List Char) (h2 : trimR j = j) :
    List.dropWhile isPySpace j.reverse = j.reverse := by
  unfold trimR at h2
  have h3 := congrArg List.reverse h2
  rw [List.reverse_reverse] at h3
  exact h3

theorem pyStrip_pad (j : List Char) (hne : j ≠ [])
    (h1 : trimL j = j) (h2 : trimR j = j) :
    pyStrip ('\n' :: (j ++ ['\n'])) = j := by
  unfold pyStrip trimL trimR
  rw [List.dropWhile_cons_of_pos (by decide)]
  rw [dropWhile_eq_self_of_head j hne h1 ['\n']]
  rw [List.reverse_append]
  simp only [List.reverse_cons, List.reverse_nil, List.nil_append,
    List.singleton_append]
  rw [List.dropWhile_cons_of_pos (by decide)]
  rw [trimR_dropWhile j h2]
  rw [List.reverse_reverse]

theorem pyStrip_cons_nl (j : List Char) (h1 : trimL j = j) (h2 : trimR j = j) :
    pyStrip ('\n' :: j) = j := by
  unfold pyStrip trimL
  rw [List.dropWhile_cons_of_pos (by decide)]
  rw [show List.dropWhile isPySpace j = j from h1, h2]

theorem pyStrip_eq_self_of_ends (x y : Char) (mid : List Char)
    (hx : isPySpace x = false) (hy : isPySpace y = false) :
    pyStrip (x :: (mid ++ [y])) = x :: (mid ++ [y]) := by
  unfold pyStrip trimL trimR
  rw [List.dropWhile_cons_of_neg (by simp [hx])]
  rw [List.reverse_cons, List.reverse_append]
  simp only [List.reverse_cons, List.reverse_nil, List.nil_append,
    List.singleton_append]
  rw [List.cons_append, List.dropWhile_cons_of_neg (by simp [hy])]
  simp

theorem stripFences_clean (j : List Char)
    (h1 : trimL j = j) (h2 : trimR j = j)
    (h3 : fenceBare.isPrefixOf j = false) (h4 : fenceBare.isSuffixOf j = false) :
    stripFences j = j := by
  have h5 : fenceJson.isPrefixOf j = false := by
    cases hx : fenceJson.isPrefixOf j with
    | false => rfl
    | true =>
      exfalso
      have h6 := isPrefixOf_of_append fenceBare ['j', 's', 'o', 'n'] j hx
      rw [h3] at h6
      exact Bool.noConfusion h6
  have hs : pyStrip j = j := by
    unfold pyStrip
    rw [show trimL j = j from h1, h2]
  simp [stripFences, hs, h5, h3, h4]

theorem stripFences_tagged_wrapped (j : List Char) (hne : j ≠ [])
    (h1 : trimL j = j) (h2 : trimR j = j) :
    stripFences (fenceJson ++ '\n' :: (j ++ '\n' :: fenceBare)) = j := by
  have hstrip : pyStrip (fenceJson ++ '\n' :: (j ++ '\n' :: fenceBare)) =
      fenceJson ++ '\n' :: (j ++ '\n' :: fenceBare) := by
    rw [show fenceJson ++ '\n' :: (j ++ '\n' :: fenceBare) =
        btick :: (([btick, btick, 'j', 's', 'o', 'n', '\n'] ++
          (j ++ ['\n', btick, btick])) ++ [btick])
      by simp [fenceJson, fenceBare]]
    exact pyStrip_eq_self_of_ends btick btick _ (by decide) (by decide)
  have e1 : (if fenceJson.isPrefixOf
        (fenceJson ++ '\n' :: (j ++ '\n' :: fenceBare)) then
        (fenceJson ++ '\n' :: (j ++ '\n' :: fenceBare)).drop 7
      else fenceJson ++ '\n' :: (j ++ '\n' :: fenceBare)) =
      '\n' :: (j ++ '\n' :: fenceBare) := by
    rw [isPrefixOf_append_self fenceJson ('\n' :: (j ++ '\n' :: fenceBare))]
    rw [if_pos rfl]
    exact List.drop_left' rfl
  have e2 : (if fenceBare.isPrefixOf ('\n' :: (j ++ '\n' :: fenceBare)) then
        ('\n' :: (j ++ '\n' :: fenceBare)).drop 3
      else '\n' :: (j ++ '\n' :: fenceBare)) =
      '\n' :: (j ++ '\n' :: fenceBare) := by
    rw [show fenceBare.isPrefixOf ('\n' :: (j ++ '\n' :: fenceBare)) = false
      from rfl]
    exact if_neg (by simp)
  have e3 : (if fenceBare.isSuffixOf ('\n' :: (j ++ '\n' :: fenceBare)) then
        ('\n' :: (j ++ '\n' :: fenceBare)).take
          (('\n' :: (j ++ '\n' :: fenceBare)).length - 3)
      else '\n' :: (j ++ '\n' :: fenceBare)) = '\n' :: (j ++ ['\n']) := by
    rw [show '\n' :: (j ++ '\n' :: fenceBare) =
      ('\n' :: (j ++ ['\n'])) ++ fenceBare by simp]
    rw [isSuffixOf_fence_append ('\n' :: (j ++ ['\n']))]
    rw [if_pos rfl]
    exact List.take_left' (by simp [fenceBare])
  simp only [stripFences]
  rw [hstrip, e1, e2, e3]
  exact pyStrip_pad j hne h1 h2

theorem stripFences_bare_wrapped (j : List Char) (hne : j ≠ [])
    (h1 : trimL j = j) (h2 : trimR j = j) :
    stripFences (fenceBare ++ '\n' :: (j ++ '\n' :: fenceBare)) = j := by
  have hstrip : pyStrip (fenceBare ++ '\n' :: (j ++ '\n' :: fenceBare)) =
      fenceBare ++ '\n' :: (j ++ '\n' :: fenceBare) := by
    rw [show fenceBare ++ '\n' :: (j ++ '\n' :: fenceBare) =
        btick :: (([btick, btick, '\n'] ++
          (j ++ ['\n', btick, btick])) ++ [btick]) by simp [fenceBare]]
    exact pyStrip_eq_self_of_ends btick btick _ (by decide) (by decide)
  have e1 : (if fenceJson.isPrefixOf
        (fenceBare ++ '\n' :: (j ++ '\n' :: fenceBare)) then
        (fenceBare ++ '\n' :: (j ++ '\n' :: fenceBare)).drop 7
      else fenceBare ++ '\n' :: (j ++ '\n' :: fenceBare)) =
      fenceBare ++ '\n' :: (j ++ '\n' :: fenceBare) := by
    rw [show fenceJson.isPrefixOf
      (fenceBare ++ '\n' :: (j ++ '\n' :: fenceBare)) = false from rfl]
    exact if_neg (by simp)
  have e2 : (if fenceBare.isPrefixOf
        (fenceBare ++ '\n' :: (j ++ '\n' :: fenceBare)) then
        (fenceBare ++ '\n' :: (j ++ '\n' :: fenceBare)).drop 3
      else fenceBare ++ '\n' :: (j ++ '\n' :: fenceBare)) =
      '\n' :: (j ++ '\n' :: fenceBare) := by
    rw [isPrefixOf_append_self fenceBare ('\n' :: (j ++ '\n' :: fenceBare))]
    rw [if_pos rfl]
    exact List.drop_left' rfl
  have e3 : (if fenceBare.isSuffixOf ('\n' :: (j ++ '\n' :: fenceBare)) then
        ('\n' :: (j ++ '\n' :: fenceBare)).take
          (('\n' :: (j ++ '\n' :: fenceBare)).length - 3)
      else '\n' :: (j ++ '\n' :: fenceBare)) = '\n' :: (j ++ ['\n']) := by
    rw [show '\n' :: (j ++ '\n' :: fenceBare) =
      ('\n' :: (j ++ ['\n'])) ++ fenceBare by simp]
    rw [isSuffixOf_fence_append ('\n' :: (j ++ ['\n']))]
    rw [if_pos rfl]
    exact List.take_left' (by simp [fenceBare])
  simp only [stripFences]
  rw [hstrip, e1, e2, e3]
  exact pyStrip_pad j hne h1 h2

theorem stripFences_tagged_open (j : List Char) (hne : j ≠ [])
    (h1 : trimL j = j) (h2 : trimR j = j)
    (h4 : fenceBare.isSuffixOf j = false) :
    stripFences (fenceJson ++ '\n' :: j) = j := by
  obtain ⟨l, c, hj⟩ : ∃ L b, j = L ++ [b] := by
    rcases List.eq_nil_or_concat j with h | ⟨L, b, h⟩
    · exact absurd h hne
    · exact ⟨L, b, by simpa using h⟩
  have hc : isPySpace c = false := last_not_space l c (by rw [← hj]; exact h2)
  have hstrip : pyStrip (fenceJson ++ '\n' :: j) = fenceJson ++ '\n' :: j := by
    rw [hj]
    rw [show fenceJson ++ '\n' :: (l ++ [c]) =
        btick :: (([btick, btick, 'j', 's', 'o', 'n', '\n'] ++ l) ++ [c])
      by simp [fenceJson, fenceBare]]
    exact pyStrip_eq_self_of_ends btick c _ (by decide) hc
  have e1 : (if fenceJson.isPrefixOf (fenceJson ++ '\n' :: j) then
        (fenceJson ++ '\n' :: j).drop 7
      else fenceJson ++ '\n' :: j) = '\n' :: j := by
    rw [isPrefixOf_append_self fenceJson ('\n' :: j)]
    rw [if_pos rfl]
    exact List.drop_left' rfl
  have e2 : (if fenceBare.isPrefixOf ('\n' :: j) then ('\n' :: j).drop 3
      else '\n' :: j) = '\n' :: j := by
    rw [show fenceBare.isPrefixOf ('\n' :: j) = false from rfl]
    exact if_neg (by simp)
  have e3 : (if fenceBare.isSuffixOf ('\n' :: j) then
        ('\n' :: j).take (('\n' :: j).length - 3)
      else '\n' :: j) = '\n' :: j := by
    rw [isSuffixOf_cons_false j '\n' h4 (by decide)]
    exact if_neg (by simp)
  simp only [stripFences]
  rw [hstrip, e1, e2, e3]
  exact pyStrip_cons_nl j h1 h2

theorem stripFences_bare_open (j : List Char) (hne : j ≠ [])
    (h1 : trimL j = j) (h2 : trimR j = j)
    (h4 : fenceBare.isSuffixOf j = false) :
    stripFences (fenceBare ++ '\n' :: j) = j := by
  obtain ⟨l, c, hj⟩ : ∃ L b, j = L ++ [b] := by
    rcases List.eq_nil_or_concat j with h | ⟨L, b, h⟩
    · exact absurd h hne
    · exact ⟨L, b, by simpa using h⟩
  have hc : isPySpace c = false := last_not_space l c (by rw [← hj]; exact h2)
  have hstrip : pyStrip (fenceBare ++ '\n' :: j) = fenceBare ++ '\n' :: j := by
    rw [hj]
    rw [show fenceBare ++ '\n' :: (l ++ [c]) =
        btick :: (([btick, btick, '\n'] ++ l) ++ [c]) by simp [fenceBare]]
    exact pyStrip_eq_self_of_ends btick c _ (by decide) hc
  have e1 : (if fenceJson.isPrefixOf (fenceBare ++ '\n' :: j) then
        (fenceBare ++ '\n' :: j).drop 7
      else fenceBare ++ '\n' :: j) = fenceBare ++ '\n' :: j := by
    rw [show fenceJson.isPrefixOf (fenceBare ++ '\n' :: j) = false from rfl]
    exact if_neg (by simp)
  have e2 : (if fenceBare.isPrefixOf (fenceBare ++ '\n' :: j) then
        (fenceBare ++ '\n' :: j).drop 3
      else fenceBare ++ '\n' :: j) = '\n' :: j := by
    rw [isPrefixOf_append_self fenceBare ('\n' :: j)]
    rw [if_pos rfl]
    exact List.drop_left' rfl
  have e3 : (if fenceBare.isSuffixOf ('\n' :: j) then
        ('\n' :: j).take (('\n' :: j).length - 3)
      else '\n' :: j) = '\n' :: j := by
    rw [isSuffixOf_cons_false j '\n' h4 (by decide)]
    exact if_neg (by simp)
  simp only [stripFences]
  rw [hstrip, e1, e2, e3]
  exact pyStrip_cons_nl j h1 h2

/-- Claim C4: the cleanup is the identity on trimmed fence-free text (hence
idempotent there), and it recovers the inner text from a leading
JSON-language-tagged fence (the tagged form the code handles) or a bare
triple-backtick fence, with or without a trailing fence. -/
theorem c4_fence_stripping_behavior (j : List Char) (hne : j ≠ [])
    (h1 : trimL j = j) (h2 : trimR j = j)
    (h3 : fenceBare.isPrefixOf j = false)
    (h4 : fenceBare.isSuffixOf j = false) :
    stripFences j = j ∧
    stripFences (stripFences j) = stripFences j ∧
    stripFences (fenceJson ++ '\n' :: (j ++ '\n' :: fenceBare)) = j ∧
    stripFences (fenceBare ++ '\n' :: (j ++ '\n' :: fenceBare)) = j ∧
    stripFences (fenceJson ++ '\n' :: j) = j ∧
    stripFences (fenceBare ++ '\n' :: j) = j := by
  have hclean := stripFences_clean j h1 h2 h3 h4
  refine ⟨hclean, ?_, stripFences_tagged_wrapped j hne h1 h2,
    stripFences_bare_wrapped j hne h1 h2,
    stripFences_tagged_open j hne h1 h2 h4,
    stripFences_bare_open j hne h1 h2 h4⟩
  rw [hclean]
  exact hclean

/-- Claim C4 witness: the theorem applied to the one-character text `x`. -/
theorem c4_fence_stripping_behavior_witness :
    (['x'] : List Char) ≠ [] ∧ trimL ['x'] = ['x'] ∧ trimR ['x'] = ['x'] ∧
    fenceBare.isPrefixOf ['x'] = false ∧ fenceBare.isSuffixOf ['x'] = false ∧
    (stripFences ['x'] = ['x'] ∧
     stripFences (stripFences ['x']) = stripFences ['x'] ∧
     stripFences (fenceJson ++ '\n' :: (['x'] ++ '\n' :: fenceBare)) = ['x'] ∧
     stripFences (fenceBare ++ '\n' :: (['x'] ++ '\n' :: fenceBare)) = ['x'] ∧
     stripFences (fenceJson ++ '\n' :: ['x']) = ['x'] ∧
     stripFences (fenceBare ++ '\n' :: ['x']) = ['x']) :=
  ⟨by decide, by decide, by decide, by decide, by decide,
   c4_fence_stripping_behavior ['x'] (by decide) (by decide) (by decide)
     (by decide) (by decide)⟩

/-! Percentage-validation lemmas (for C3, C8, C5) -/

theorem mk_out_of_range (v : ℚ) (c : ConfidenceLevel) (r : String)
    (q : PhotoQuality) (hv : v < 5 ∨ 50 < v) :
    mkAIAnalysisResult v c r q = none := by
  have hcond : ¬ (5 ≤ v ∧ v ≤ 50) := by
    rintro ⟨h5, h50⟩
    rcases hv with h | h
    · linarith
    · linarith
  unfold mkAIAnalysisResult
  rw [if_pos hcond]

theorem mk_in_range (v : ℚ) (c : ConfidenceLevel) (r : String)
    (q : PhotoQuality) (h5 : 5 ≤ v) (h50 : v ≤ 50) (hr : 10 ≤ r.length) :
    mkAIAnalysisResult v c r q =
      some (AIAnalysisResult.mk (roundTenths v) c r q) := by
  unfold mkAIAnalysisResult validate_percentage
  rw [if_neg (not_not_intro ⟨h5, h50⟩), if_neg (by omega), if_pos ⟨h5, h50⟩]
  rfl

theorem mk_some_inv (p : ℚ) (c : ConfidenceLevel) (r : String)
    (q : PhotoQuality) (res : AIAnalysisResult)
    (h : mkAIAnalysisResult p c r q = some res) :
    res.reasoning = r ∧ 10 ≤ r.length := by
  unfold mkAIAnalysisResult at h
  by_cases hA : ¬ (5 ≤ p ∧ p ≤ 50)
  · rw [if_pos hA] at h
    exact Option.noConfusion h
  by_cases hB : r.length < 10
  · rw [if_neg hA, if_pos hB] at h
    exact Option.noConfusion h
  rw [if_neg hA, if_neg hB] at h
  unfold validate_percentage at h
  rw [if_pos (not_not.mp hA)] at h
  have h2 : AIAnalysisResult.mk (roundTenths p) c r q = res := by
    have h3 := h
    simp only [Option.map] at h3
    exact Option.some.inj h3
  rw [← h2]
  exact ⟨rfl, by omega⟩

theorem mk_reasoning_ok_none (p : ℚ) (c : ConfidenceLevel) (q : PhotoQuality) :
    mkAIAnalysisResult p c "ok" q = none := by
  unfold mkAIAnalysisResult
  split_ifs with hA hB
  all_goals first
    | rfl
    | exact absurd (by decide : ("ok" : String).length < 10) hB

/-- Claim C3: the percentage field is re-validated against 5.0–50.0 and
rounded to one decimal: 4.9 and 50.1 abort construction (no clamping),
23.456 is stored as 23.5; in general every out-of-range value is rejected
and every in-range value is stored rounded to tenths. -/
theorem c3_percentage_bounds_and_rounding (c : ConfidenceLevel) (r : String)
    (q : PhotoQuality) (hr : 10 ≤ r.length) :
    mkAIAnalysisResult 4.9 c r q = none ∧
    mkAIAnalysisResult 50.1 c r q = none ∧
    mkAIAnalysisResult 23.456 c r q =
      some (AIAnalysisResult.mk 23.5 c r q) ∧
    (∀ v : ℚ, v < 5 ∨ 50 < v → mkAIAnalysisResult v c r q = none) ∧
    (∀ v : ℚ, 5 ≤ v → v ≤ 50 →
      mkAIAnalysisResult v c r q =
        some (AIAnalysisResult.mk (roundTenths v) c r q)) := by
  refine ⟨mk_out_of_range 4.9 c r q (by norm_num),
    mk_out_of_range 50.1 c r q (by norm_num), ?_,
    fun v hv => mk_out_of_range v c r q hv,
    fun v h5 h50 => mk_in_range v c r q h5 h50 hr⟩
  rw [mk_in_range 23.456 c r q (by norm_num) (by norm_num) hr]
  norm_num [roundTenths, round_eq]

/-- Claim C3 witness. -/
theorem c3_percentage_bounds_and_rounding_witness :
    10 ≤ ("a reasonable explanation" : String).length ∧
    (mkAIAnalysisResult 4.9 ConfidenceLevel.high "a reasonable explanation"
        PhotoQuality.good = none ∧
     mkAIAnalysisResult 50.1 ConfidenceLevel.high "a reasonable explanation"
        PhotoQuality.good = none ∧
     mkAIAnalysisResult 23.456 ConfidenceLevel.high
        "a reasonable explanation" PhotoQuality.good =
       some (AIAnalysisResult.mk 23.5 ConfidenceLevel.high
         "a reasonable explanation" PhotoQuality.good) ∧
     (∀ v : ℚ, v < 5 ∨ 50 < v →
       mkAIAnalysisResult v ConfidenceLevel.high "a reasonable explanation"
         PhotoQuality.good = none) ∧
     (∀ v : ℚ, 5 ≤ v → v ≤ 50 →
       mkAIAnalysisResult v ConfidenceLevel.high "a reasonable explanation"
         PhotoQuality.good =
         some (AIAnalysisResult.mk (roundTenths v) ConfidenceLevel.high
           "a reasonable explanation" PhotoQuality.good))) :=
  ⟨by decide,
   c3_percentage_bounds_and_rounding ConfidenceLevel.high
     "a reasonable explanation" PhotoQuality.good (by decide)⟩

/-- Claim C7 counterexample: on the spec's own scenario (4000×3000 upload
named `photo.png`, one detectable face, under the cap) the persisted path
keeps the `.png` extension; no `.jpg`-named file is written, contradicting
"the Persister writes a `.jpg` file". -/
theorem c7_counterexample :
    (save_and_process_image envOneFace "uploads" 1000 "photo.png" "u" true
        (Image.mk 4000 3000 [])).2 =
      Except.ok (PipelineResult.mk "uploads/u_t.png" 2048 1536 12345 1
        true) ∧
    pathSuffix "uploads/u_t.png" = ".png" ∧
    (".png" : String) ≠ ".jpg" :=
  ⟨rfl, rfl, by decide⟩

/-- Claim C7 (amended): the scenario passes validation, is scaled to
2048×1536 (max-dimension × max-dimension·3/4), has its one detected region
blurred, and the Persister writes one JPEG-encoded file — whose name keeps
the `.png` extension — returning
(path, 2048, 1536, on-disk size, 1, true). -/
theorem c7_pipeline_scenario :
    save_and_process_image envOneFace "uploads" 1000 "photo.png" "u" true
        (Image.mk 4000 3000 []) =
      ([Effect.fileWrite "uploads/u_t.png"
          (Image.mk 2048 1536 [FaceBox.mk 10 100 110 20])],
       Except.ok (PipelineResult.mk "uploads/u_t.png" 2048 1536 12345 1
         true)) ∧
    _validate_image 1000 "photo.png" true = Except.ok () ∧
    _resize_if_needed (Image.mk 4000 3000 []) = Image.mk 2048 1536 [] ∧
    (2048 = max_image_dimension ∧ 1536 = max_image_dimension * 3 / 4) ∧
    _anonymize_faces detectorOneFace (Image.mk 2048 1536 []) =
      (1, Image.mk 2048 1536 [FaceBox.mk 10 100 110 20]) :=
  ⟨rfl, rfl, rfl, by decide, rfl⟩

/-- Claim C8 counterexample: a response whose other fields are valid but
whose reasoning is `"ok"` does NOT parse successfully — pydantic's
`min_length=10` aborts construction inside the parser, which raises the
analysis-failure error; the secondary check is never reached. -/
theorem c8_counterexample :
    parse_ai_response (decodeOkReasoning "ok") floatOfStrNone
        ("resp" : String).data =
      Except.error (ParseFail.analysisError
        (parseErrHead ++ ("resp" : String).data)) := by
  have h1 : mkAIAnalysisResult (91/5) ConfidenceLevel.high "ok"
      PhotoQuality.good = none := mk_reasoning_ok_none (91/5)
    ConfidenceLevel.high PhotoQuality.good
  have hcore : parseCore (decodeOkReasoning "ok") floatOfStrNone
      ("resp" : String).data = Except.error PyErr.valueError := by
    show (match mkAIAnalysisResult (91/5) ConfidenceLevel.high "ok"
        PhotoQuality.good with
      | some res => Except.ok res
      | none => Except.error PyErr.valueError) =
      Except.error PyErr.valueError
    rw [h1]
  unfold parse_ai_response
  rw [hcore]
  rfl

/-- Claim C8 (amended): a reasoning of `"ok"` is rejected by the parser
itself (pydantic `min_length=10`: construction yields `none` for every
percentage/confidence/quality); every result the parser does produce has
reasoning length ≥ 10; and the secondary acceptance check rejects every
result whose reasoning is shorter than 20 characters. -/
theorem c8_reasoning_checks :
    (∀ (p : ℚ) (c : ConfidenceLevel) (q : PhotoQuality),
      mkAIAnalysisResult p c "ok" q = none) ∧
    (∀ res : AIAnalysisResult, res.reasoning.length < 20 →
      validate_analysis_result res = false) ∧
    (∀ (p : ℚ) (c : ConfidenceLevel) (r : String) (q : PhotoQuality)
        (res : AIAnalysisResult),
      mkAIAnalysisResult p c r q = some res →
        10 ≤ res.reasoning.length) := by
  refine ⟨fun p c q => mk_reasoning_ok_none p c q, ?_, ?_⟩
  · intro res hshort
    unfold validate_analysis_result
    split_ifs with h1 <;> rfl
  · intro p c r q res h
    obtain ⟨hre, hlen⟩ := mk_some_inv p c r q res h
    rw [hre]
    exact hlen

/-- Claim C8 witness: the amended theorem applied at concrete inputs. -/
theorem c8_reasoning_checks_witness :
    mkAIAnalysisResult 18.2 ConfidenceLevel.high "ok" PhotoQuality.good =
      none ∧
    (AIAnalysisResult.mk 18.2 ConfidenceLevel.high "short reason!"
        PhotoQuality.good).reasoning.length < 20 ∧
    validate_analysis_result (AIAnalysisResult.mk 18.2 ConfidenceLevel.high
      "short reason!" PhotoQuality.good) = false :=
  ⟨c8_reasoning_checks.1 18.2 ConfidenceLevel.high PhotoQuality.good,
   by decide,
   c8_reasoning_checks.2.1 _ (by decide)⟩

/-- Claim C5 counterexample: a structurally parseable response whose
`confidence` field has the wrong type (a number) raises an
`AttributeError` at `.lower()` that the parser's `except` clause does not
catch — the outcome is not the analysis-failure error with the
200-character excerpt. -/
theorem c5_counterexample :
    parse_ai_response decodeBadConfidence floatOfStrNone
        ("resp2" : String).data =
      Except.error (ParseFail.uncaught PyErr.attributeError) := rfl

/-- Claim C5 (amended): every failure the `except` clause does catch
(JSON-decode failure, missing key, `ValueError`-class coercion or
validation failure) is converted into the single analysis-failure error
whose message appends exactly `text[:200]` — at most 200 characters, and a
proper prefix (never the full response) whenever the response exceeds 200
characters. -/
theorem c5_caught_failures_truncated (decode : List Char → Except Unit JDoc)
    (floatOfStr : String → Option ℚ) (text : List Char) (e : PyErr)
    (hfail : parseCore decode floatOfStr text = Except.error e)
    (hc : caughtErr e = true) :
    parse_ai_response decode floatOfStr text =
      Except.error (ParseFail.analysisError
        (parseErrHead ++ text.take 200)) ∧
    (text.take 200).length ≤ 200 ∧
    (200 < text.length → text.take 200 ≠ text) := by
  refine ⟨?_, ?_, ?_⟩
  · unfold parse_ai_response
    rw [hfail]
    simp [hc]
  · rw [List.length_take]
    omega
  · intro hlong heq
    have hl := congrArg List.length heq
    rw [List.length_take] at hl
    omega

/-- Claim C5 witness. -/
theorem c5_caught_failures_truncated_witness :
    parseCore decodeFail floatOfStrNone ("bad" : String).data =
      Except.error PyErr.jsonDecode ∧
    caughtErr PyErr.jsonDecode = true ∧
    (parse_ai_response decodeFail floatOfStrNone ("bad" : String).data =
        Except.error (ParseFail.analysisError
          (parseErrHead ++ ("bad" : String).data.take 200)) ∧
      (("bad" : String).data.take 200).length ≤ 200 ∧
      (200 < ("bad" : String).data.length →
        ("bad" : String).data.take 200 ≠ ("bad" : String).data)) :=
  ⟨rfl, rfl,
   c5_caught_failures_truncated decodeFail floatOfStrNone
     ("bad" : String).data PyErr.jsonDecode rfl rfl⟩

end BodyFat
